import Mathlib

/-!
Shallow embedding of `blender_wrapper.py`: the Dispatcher `run_blender_script`
and the Command Router `main`.

The embedding is parametric over an `Env` record that models the pieces of the
outside world the Python code touches: filesystem probing (`Path(p).exists()`),
the process environment (`os.environ`, which the source in fact never reads),
the subprocess launcher (`subprocess.run` with its timeout), and the standard
JSON parser (`json.loads`, modelled as an oracle since it is library code, not
repository code).  Emission of the result on standard output and the process
exit code are modelled by `main` returning the list of printed result objects
together with the exit code.
-/

set_option autoImplicit false

namespace BlenderWrapper

/-- Outcome of one completed `subprocess.run` call: exit code and the captured
standard output / standard error text. -/
structure ProcResult where
  returncode : Int
  stdout : String
  stderr : String
  deriving Repr, DecidableEq

/-- What launching the child process can do: complete with a `ProcResult`,
exceed the timeout (`subprocess.TimeoutExpired`), or raise some other
exception whose string rendering is `msg` (the broad `except Exception`). -/
inductive RunOutcome where
  | completed (r : ProcResult)
  | timedOut
  | exn (msg : String)
  deriving Repr, DecidableEq

/-- The result dictionaries built by `blender_wrapper.py`.  Each Python dict
populates a subset of these keys; absent keys are `none`.  `J` is the type of
parsed JSON values (the payload of the `data` key). -/
structure ExecutionResult (J : Type) where
  success : Bool
  data : Option J
  stdout : Option String
  stderr : Option String
  error : Option String
  message : Option String
  deriving Repr, DecidableEq

/-- The outside world as seen by `blender_wrapper.py`:
`pathExists p` models `Path(p).exists()`; `getenv` models `os.environ.get`
(the source never calls it — it is part of the model precisely to show that);
`run cmd t` models `subprocess.run(cmd, capture_output=True, text=True,
timeout=t)`; `parseJson` models `json.loads` on a whole string; `scriptDir`
models `Path(__file__).parent`. -/
structure Env (J : Type) where
  pathExists : String → Bool
  getenv : String → Option String
  run : List String → Nat → RunOutcome
  parseJson : String → Option J
  scriptDir : String

/-- The fixed ordered candidate list `blender_paths` from `run_blender_script`. -/
def blender_paths : List String :=
  ["/usr/bin/blender",
   "/usr/local/bin/blender",
   "/Applications/Blender.app/Contents/MacOS/Blender",
   "C:\\Program Files\\Blender Foundation\\Blender\\blender.exe"]

/-- The `for path in blender_paths: if Path(path).exists(): ... break` loop:
first candidate that exists, else `None`. -/
def findExisting (pathExists : String → Bool) : List String → Option String
  | [] => none
  | p :: ps => if pathExists p then some p else findExisting pathExists ps

/-- Error text returned when no candidate executable exists. -/
def notFoundMsg : String :=
  "Blender executable not found. Please install Blender or set BLENDER_PATH environment variable."

/-- Error text returned on `subprocess.TimeoutExpired`. -/
def timeoutMsg : String :=
  "Blender operation timed out (5 minutes)"

/-- The command line built by `run_blender_script`:
`[blender_exe, '--background', '--python', str(script_path), '--'] + args`. -/
def mkCmd (exe scriptDir script_name : String) (args : List String) : List String :=
  [exe, "--background", "--python", scriptDir ++ "/" ++ script_name, "--"] ++ args

variable {J : Type}

/-- `run_blender_script(script_name, args)`: resolve the executable, run the
subprocess with the fixed 300 second timeout, and classify the outcome. -/
def run_blender_script (env : Env J) (script_name : String) (args : List String) :
    ExecutionResult J :=
  match findExisting env.pathExists blender_paths with
  | none =>
    ⟨false, none, none, none, some notFoundMsg, none⟩
  | some blender_exe =>
    match env.run (mkCmd blender_exe env.scriptDir script_name args) 300 with
    | .completed r =>
      match env.parseJson r.stdout with
      | some output_data =>
        ⟨r.returncode == 0, some output_data, none, some r.stderr, none, none⟩
      | none =>
        ⟨r.returncode == 0, none, some r.stdout, some r.stderr, none, none⟩
    | .timedOut =>
      ⟨false, none, none, none, some timeoutMsg, none⟩
    | .exn msg =>
      ⟨false, none, none, none, some msg, none⟩

/-- The options argparse hands to `main` (post-parsing).  `Option` fields are
`None` when the flag was not given; the three integer fields carry argparse
defaults. -/
structure Args where
  input : Option String
  output : Option String
  formats : Option String
  target_polys : Option Int
  platform : Option String
  quality : Option String
  resolution : Int
  samples : Int
  lod_levels : Int
  deriving Repr, DecidableEq

/-- Python truthiness of an optional string, as used in `not args.input`:
`None` and the empty string are falsy. -/
def truthy : Option String → Bool
  | none => false
  | some s => !(s == "")

/-- Python `x or default` on an optional string (used for
`formats = args.formats or 'obj,fbx'`). -/
def orDefault (o : Option String) (d : String) : String :=
  match o with
  | none => d
  | some s => if s == "" then d else s

/-- Extract the string behind an option already known truthy (the value the
Python code passes on). -/
def getStr (o : Option String) : String :=
  o.getD ""

/-- The shared epilogue of `main`: `print(json.dumps(result))` then
`sys.exit(0 if result.get('success') else 1)`.  The first component is the
list of result objects printed on standard output. -/
def finish (r : ExecutionResult J) : List (ExecutionResult J) × Nat :=
  ([r], if r.success then 0 else 1)

/-- `main()` after argparse: route `command` with options `args`, printing
exactly the JSON result objects in the first component and exiting with the
second component. -/
def main (env : Env J) (command : String) (args : Args) :
    List (ExecutionResult J) × Nat :=
  if command = "import_export" then
    if !truthy args.input || !truthy args.output then
      ([⟨false, none, none, none, some "Missing --input or --output", none⟩], 1)
    else
      let formats := orDefault args.formats "obj,fbx"
      finish (run_blender_script env "automation.py"
        ["import_export", getStr args.input, getStr args.output, formats])
  else if command = "cleanup" then
    if !truthy args.input || !truthy args.output then
      ([⟨false, none, none, none, some "Missing --input or --output", none⟩], 1)
    else
      finish (run_blender_script env "automation.py"
        ["cleanup", getStr args.input, getStr args.output])
  else if command = "stats" then
    if !truthy args.input then
      ([⟨false, none, none, none, some "Missing --input", none⟩], 1)
    else
      finish (run_blender_script env "automation.py"
        ["stats", getStr args.input])
  else if command = "optimize" then
    if !truthy args.input || !truthy args.output || !truthy args.platform then
      ([⟨false, none, none, none, some "Missing --input, --output, or --platform", none⟩], 1)
    else
      finish ⟨true, none, none, none, none, some "Optimization script to be implemented"⟩
  else if command = "generate_lods" then
    if !truthy args.input || !truthy args.output then
      ([⟨false, none, none, none, some "Missing --input or --output", none⟩], 1)
    else
      finish ⟨true, none, none, none, none, some "LOD generation script to be implemented"⟩
  else if command = "bake_textures" then
    if !truthy args.input || !truthy args.output then
      ([⟨false, none, none, none, some "Missing --input or --output", none⟩], 1)
    else
      finish ⟨true, none, none, none, none, some "Texture baking script to be implemented"⟩
  else
    finish ⟨false, none, none, none, some ("Unknown command: " ++ command), none⟩

/-- Boolean test: does `needle` occur at the head of the second list? -/
def leadsB : List Char → List Char → Bool
  | [], _ => true
  | _ :: _, [] => false
  | a :: as, b :: bs => a == b && leadsB as bs

/-- Boolean test: does `needle` occur anywhere in the list? -/
def occursB (needle : List Char) : List Char → Bool
  | [] => needle.isEmpty
  | c :: cs => leadsB needle (c :: cs) || occursB needle cs

/-- Substring test on strings (used to state "the error mentions ..."). -/
def containsStr (hay needle : String) : Bool :=
  occursB needle.data hay.data

/-- Concrete JSON-value type used when instantiating the theorems on concrete
runs: a flat object mapping field names to integers, enough for the outputs
exercised by the spec (`mesh_count`, `total_vertices`). -/
abbrev JFlat : Type := List (String × Int)

/-- A concrete environment for instantiating theorems: a filesystem predicate,
one fixed subprocess outcome, and one fixed parser. -/
def mockEnv (pe : String → Bool) (ro : RunOutcome) (pj : String → Option JFlat) :
    Env JFlat :=
  ⟨pe, fun _ => none, fun _ _ => ro, pj, "/repo/blender"⟩

/-- A fully absent option set. -/
def argsNone : Args :=
  ⟨none, none, none, none, none, none, 2048, 64, 5⟩

/-- Options `--input model.obj --output out --platform vrchat_pc`. -/
def argsFull : Args :=
  ⟨some "model.obj", some "out", none, none, some "vrchat_pc", none, 2048, 64, 5⟩

/-- Options `--input model.obj` only. -/
def argsIn : Args :=
  ⟨some "model.obj", none, none, none, none, none, 2048, 64, 5⟩

end BlenderWrapper

namespace Claims

open BlenderWrapper

variable {J : Type}

/-- Helper: every result produced by `run_blender_script` that carries an
`error` field has `success = false`. -/
theorem run_error_failure (env : Env J) (s : String) (as : List String) :
    (run_blender_script env s as).error.isSome = true →
    (run_blender_script env s as).success = false := by
  unfold run_blender_script
  split
  · simp
  · split
    · split <;> simp
    · simp
    · simp

/-- Helper: every result printed by `main` that carries an `error` field has
`success = false`. -/
theorem main_error_failure (env : Env J) (cmd : String) (args : Args) :
    ∀ r ∈ (main env cmd args).1, r.error.isSome = true → r.success = false := by
  unfold main
  split_ifs <;> intro r hr <;> simp [finish] at hr <;> subst hr <;>
    first
      | simp
      | exact run_error_failure env "automation.py" _

/-- Environment whose probed paths never exist and whose launcher would time
out: used to instantiate Router-level theorems (the Router result must not
depend on it). -/
def envP : Env JFlat := mockEnv (fun _ => false) .timedOut (fun _ => none)

/-- C1 (counterexample): with all required options supplied, the `optimize`
stub result's message is "Optimization script to be implemented", which does
not contain the command name "optimize" — so the claim that the message
contains the command name fails at this input. -/
theorem c1_claim_counterexample :
    main envP "optimize" argsFull
      = ([⟨true, none, none, none, none, some "Optimization script to be implemented"⟩], 0)
    ∧ containsStr "Optimization script to be implemented" "optimize" = false :=
  ⟨rfl, rfl⟩

/-- C1 (amended): for each of the three stub commands with all of its own
required options supplied (`optimize` requires input, output, platform;
`generate_lods` and `bake_textures` require input and output only), `main`
returns, for every environment (hence without ever consulting the
Dispatcher's world), success = true, exit code 0, and a fixed placeholder
message containing "to be implemented" (but not the literal command token). -/
theorem c1_stub_placeholder (env : Env J) (args : Args)
    (h1 : truthy args.input = true) (h2 : truthy args.output = true) :
    (truthy args.platform = true →
      main env "optimize" args
        = ([⟨true, none, none, none, none, some "Optimization script to be implemented"⟩], 0))
    ∧ main env "generate_lods" args
      = ([⟨true, none, none, none, none, some "LOD generation script to be implemented"⟩], 0)
    ∧ main env "bake_textures" args
      = ([⟨true, none, none, none, none, some "Texture baking script to be implemented"⟩], 0)
    ∧ containsStr "Optimization script to be implemented" "to be implemented" = true
    ∧ containsStr "LOD generation script to be implemented" "to be implemented" = true
    ∧ containsStr "Texture baking script to be implemented" "to be implemented" = true := by
  refine ⟨fun h3 => ?_, ?_, ?_, rfl, rfl, rfl⟩
  · simp [main, h1, h2, h3, finish]
  · simp [main, h1, h2, finish]
  · simp [main, h1, h2, finish]

/-- Options `--input model.obj --output out` only (no platform). -/
def argsIO : Args :=
  ⟨some "model.obj", some "out", none, none, none, none, 2048, 64, 5⟩

theorem c1_stub_placeholder_witness :
    truthy argsFull.input = true ∧ truthy argsFull.output = true
    ∧ truthy argsFull.platform = true
    ∧ main envP "optimize" argsFull
        = ([⟨true, none, none, none, none, some "Optimization script to be implemented"⟩], 0)
    ∧ truthy argsIO.input = true ∧ truthy argsIO.output = true
    ∧ truthy argsIO.platform = false
    ∧ main envP "generate_lods" argsIO
        = ([⟨true, none, none, none, none, some "LOD generation script to be implemented"⟩], 0)
    ∧ main envP "bake_textures" argsIO
        = ([⟨true, none, none, none, none, some "Texture baking script to be implemented"⟩], 0) :=
  ⟨rfl, rfl, rfl, (c1_stub_placeholder envP argsFull rfl rfl).1 rfl,
   rfl, rfl, rfl,
   (c1_stub_placeholder envP argsIO rfl rfl).2.1,
   (c1_stub_placeholder envP argsIO rfl rfl).2.2.1⟩

/-- Environment modelling a filesystem where only `/opt/custom/blender`
exists and the process environment has BLENDER_PATH pointing at it; launcher
and parser are arbitrary. -/
def envVarOnly (runF : List String → Nat → RunOutcome)
    (parseF : String → Option JFlat) : Env JFlat :=
  ⟨fun p => p == "/opt/custom/blender",
   fun v => if v == "BLENDER_PATH" then some "/opt/custom/blender" else none,
   runF, parseF, "/repo/blender"⟩

/-- C2 (code bug): even when BLENDER_PATH is set to an existing path,
`run_blender_script` returns the not-found error — the source never reads the
environment variable its own error message tells the user to set, and the
probed candidate list is the fixed `blender_paths` only.  This holds for every
launcher and parser, so no subprocess behaviour can rescue the call. -/
theorem c2_blender_path_ignored (runF : List String → Nat → RunOutcome)
    (parseF : String → Option JFlat) :
    (envVarOnly runF parseF).getenv "BLENDER_PATH" = some "/opt/custom/blender"
    ∧ (envVarOnly runF parseF).pathExists "/opt/custom/blender" = true
    ∧ run_blender_script (envVarOnly runF parseF) "automation.py" ["stats", "model.obj"]
        = ⟨false, none, none, none, some notFoundMsg, none⟩
    ∧ containsStr notFoundMsg "BLENDER_PATH" = true :=
  ⟨rfl, rfl, rfl, rfl⟩

/-- C3: for `import_export` and `cleanup` (required: input, output) and
`stats` (required: input), a missing required option makes `main` print
exactly the one "Missing --..." error result with success = false and exit
code 1, for every environment (hence no subprocess is launched), and the
error text mentions the missing option's name. -/
theorem c3_missing_required (env : Env J) (args : Args) :
    ((truthy args.input = false ∨ truthy args.output = false) →
      main env "import_export" args
        = ([⟨false, none, none, none, some "Missing --input or --output", none⟩], 1)
      ∧ main env "cleanup" args
        = ([⟨false, none, none, none, some "Missing --input or --output", none⟩], 1))
    ∧ (truthy args.input = false →
      main env "stats" args
        = ([⟨false, none, none, none, some "Missing --input", none⟩], 1))
    ∧ containsStr "Missing --input or --output" "--input" = true
    ∧ containsStr "Missing --input or --output" "--output" = true
    ∧ containsStr "Missing --input" "--input" = true := by
  refine ⟨fun h => ⟨?_, ?_⟩, fun h => ?_, rfl, rfl, rfl⟩
  · rcases h with h | h <;> simp [main, h]
  · rcases h with h | h <;> simp [main, h]
  · simp [main, h]

theorem c3_missing_required_witness :
    main envP "import_export" argsNone
      = ([⟨false, none, none, none, some "Missing --input or --output", none⟩], 1)
    ∧ main envP "stats" argsNone
      = ([⟨false, none, none, none, some "Missing --input", none⟩], 1) :=
  ⟨((c3_missing_required envP argsNone).1 (Or.inl rfl)).1,
   (c3_missing_required envP argsNone).2.1 rfl⟩

/-- C4: when an executable is resolved, the subprocess completes, and its
captured stdout parses as a JSON value `v`, the result is
success = (exit code == 0), data = v, stderr attached, and no stdout / error
/ message fields. -/
theorem c4_json_output (env : Env J) (script : String) (as : List String)
    (exe : String) (pr : ProcResult) (v : J)
    (hfind : findExisting env.pathExists blender_paths = some exe)
    (hrun : env.run (mkCmd exe env.scriptDir script as) 300 = .completed pr)
    (hparse : env.parseJson pr.stdout = some v) :
    run_blender_script env script as
      = ⟨pr.returncode == 0, some v, none, some pr.stderr, none, none⟩ := by
  simp only [run_blender_script, hfind, hrun, hparse]

/-- The stdout text of the spec's concrete JSON example. -/
def jsonStr : String := "\x7b\"mesh_count\": 2, \"total_vertices\": 10\x7d"

/-- A parser instance recognising exactly the spec's concrete JSON example. -/
def parse4 : String → Option JFlat :=
  fun s =>
    if s == jsonStr then some [("mesh_count", (2 : Int)), ("total_vertices", 10)] else none

/-- Environment whose subprocess exits 0 printing the concrete JSON example. -/
def env4 : Env JFlat :=
  mockEnv (fun p => p == "/usr/bin/blender") (.completed ⟨0, jsonStr, ""⟩) parse4

theorem c4_json_output_witness :
    run_blender_script env4 "automation.py" ["stats", "model.obj"]
      = ⟨true, some [("mesh_count", (2 : Int)), ("total_vertices", 10)], none, some "", none, none⟩ := by
  exact c4_json_output env4 "automation.py" ["stats", "model.obj"] "/usr/bin/blender"
    ⟨0, jsonStr, ""⟩ [("mesh_count", (2 : Int)), ("total_vertices", 10)] rfl rfl rfl

/-- C5: when an executable is resolved, the subprocess completes, and its
captured stdout does not parse as JSON, the result is
success = (exit code == 0), stdout = the raw captured text, stderr attached,
and no data / error / message fields. -/
theorem c5_raw_output (env : Env J) (script : String) (as : List String)
    (exe : String) (pr : ProcResult)
    (hfind : findExisting env.pathExists blender_paths = some exe)
    (hrun : env.run (mkCmd exe env.scriptDir script as) 300 = .completed pr)
    (hparse : env.parseJson pr.stdout = none) :
    run_blender_script env script as
      = ⟨pr.returncode == 0, none, some pr.stdout, some pr.stderr, none, none⟩ := by
  simp only [run_blender_script, hfind, hrun, hparse]

/-- Environment whose subprocess exits 0 printing the non-JSON text "done". -/
def env5 : Env JFlat :=
  mockEnv (fun p => p == "/usr/bin/blender") (.completed ⟨0, "done", ""⟩) (fun _ => none)

theorem c5_raw_output_witness :
    run_blender_script env5 "automation.py" ["cleanup", "a.obj", "b.obj"]
      = ⟨true, none, some "done", some "", none, none⟩ := by
  exact c5_raw_output env5 "automation.py" ["cleanup", "a.obj", "b.obj"] "/usr/bin/blender"
    ⟨0, "done", ""⟩ rfl rfl rfl

/-- C6: when none of the probed candidate paths exists, `run_blender_script`
returns the not-found error result with success = false, independently of the
requested script name and arguments and of the launcher (hence no subprocess
is spawned), and the error mentions "not found". -/
theorem c6_not_found (env : Env J) (script : String) (as : List String)
    (h : ∀ p ∈ blender_paths, env.pathExists p = false) :
    run_blender_script env script as
      = ⟨false, none, none, none, some notFoundMsg, none⟩
    ∧ containsStr notFoundMsg "not found" = true := by
  have h1 := h "/usr/bin/blender" (by simp [blender_paths])
  have h2 := h "/usr/local/bin/blender" (by simp [blender_paths])
  have h3 := h "/Applications/Blender.app/Contents/MacOS/Blender" (by simp [blender_paths])
  have h4 := h "C:\\Program Files\\Blender Foundation\\Blender\\blender.exe"
    (by simp [blender_paths])
  have hf : findExisting env.pathExists blender_paths = none := by
    simp [findExisting, blender_paths, h1, h2, h3, h4]
  exact ⟨by simp only [run_blender_script, hf], rfl⟩

theorem c6_not_found_witness :
    run_blender_script envP "optimize_mesh.py" ["a.obj", "b.obj"]
      = ⟨false, none, none, none, some notFoundMsg, none⟩
    ∧ containsStr notFoundMsg "not found" = true :=
  c6_not_found envP "optimize_mesh.py" ["a.obj", "b.obj"] (fun _ _ => rfl)

/-- C7: when an executable is resolved and the subprocess exceeds the fixed
300 second ceiling, the result is success = false with the "timed out
(5 minutes)" error, and it carries no stdout, stderr, or data fields. -/
theorem c7_timeout (env : Env J) (script : String) (as : List String)
    (exe : String)
    (hfind : findExisting env.pathExists blender_paths = some exe)
    (hrun : env.run (mkCmd exe env.scriptDir script as) 300 = .timedOut) :
    run_blender_script env script as
      = ⟨false, none, none, none, some timeoutMsg, none⟩
    ∧ containsStr timeoutMsg "timed out" = true :=
  ⟨by simp only [run_blender_script, hfind, hrun], rfl⟩

/-- Environment whose subprocess times out. -/
def env7 : Env JFlat :=
  mockEnv (fun p => p == "/usr/bin/blender") .timedOut (fun _ => none)

theorem c7_timeout_witness :
    run_blender_script env7 "automation.py" ["cleanup", "a.obj", "b.obj"]
      = ⟨false, none, none, none, some timeoutMsg, none⟩
    ∧ containsStr timeoutMsg "timed out" = true :=
  c7_timeout env7 "automation.py" ["cleanup", "a.obj", "b.obj"] "/usr/bin/blender" rfl rfl

/-- C8: (i) every result printed by `main` whose `error` field is present has
success = false; (ii) whenever a resolved subprocess completes with a
non-zero exit code, the Dispatcher's result has success = false. -/
theorem c8_invariant (env : Env J) (command : String) (args : Args)
    (script : String) (sargs : List String) (r : ExecutionResult J)
    (hr : r ∈ (main env command args).1) :
    (r.error.isSome = true → r.success = false)
    ∧ (∀ exe pr, findExisting env.pathExists blender_paths = some exe →
        env.run (mkCmd exe env.scriptDir script sargs) 300 = .completed pr →
        (pr.returncode == 0) = false →
        (run_blender_script env script sargs).success = false) := by
  constructor
  · exact main_error_failure env command args r hr
  · intro exe pr hfind hrun hrc
    simp only [run_blender_script, hfind, hrun]
    split <;> simp [hrc]

/-- Environment whose subprocess exits 1 with stderr "boom". -/
def env8 : Env JFlat :=
  mockEnv (fun p => p == "/usr/bin/blender") (.completed ⟨1, "out", "boom"⟩) (fun _ => none)

theorem c8_invariant_witness :
    main env8 "stats" argsIn
      = ([⟨false, none, some "out", some "boom", none, none⟩], 1)
    ∧ ((⟨false, none, some "out", some "boom", none, none⟩ : ExecutionResult JFlat).error.isSome = true →
       (⟨false, none, some "out", some "boom", none, none⟩ : ExecutionResult JFlat).success = false)
    ∧ (∀ exe pr, findExisting env8.pathExists blender_paths = some exe →
        env8.run (mkCmd exe env8.scriptDir "automation.py" ["stats", "model.obj"]) 300
          = .completed pr →
        (pr.returncode == 0) = false →
        (run_blender_script env8 "automation.py" ["stats", "model.obj"]).success = false) := by
  have h := c8_invariant env8 "stats" argsIn "automation.py" ["stats", "model.obj"]
    ⟨false, none, some "out", some "boom", none, none⟩ (by decide)
  exact ⟨rfl, h.1, h.2⟩

/-- C9: for every environment, command name, and option set, `main` prints
exactly one result object on standard output and exits with code 0 when that
result has success = true and code 1 otherwise. -/
theorem c9_single_result_exit_code (env : Env J) (command : String) (args : Args) :
    ∃ r, main env command args = ([r], if r.success then 0 else 1) := by
  unfold main
  split_ifs <;> exact ⟨_, rfl⟩

/-- C10: the stub commands enforce their required options before any
placeholder result: `optimize` requires input, output, and platform;
`generate_lods` and `bake_textures` require input and output.  When one is
missing, `main` prints the single "Missing --..." error result naming the
missing options and exits 1, for every environment; no success result is
produced. -/
theorem c10_stub_required (env : Env J) (args : Args) :
    ((truthy args.input = false ∨ truthy args.output = false ∨ truthy args.platform = false) →
      main env "optimize" args
        = ([⟨false, none, none, none, some "Missing --input, --output, or --platform", none⟩], 1))
    ∧ ((truthy args.input = false ∨ truthy args.output = false) →
      main env "generate_lods" args
        = ([⟨false, none, none, none, some "Missing --input or --output", none⟩], 1))
    ∧ ((truthy args.input = false ∨ truthy args.output = false) →
      main env "bake_textures" args
        = ([⟨false, none, none, none, some "Missing --input or --output", none⟩], 1))
    ∧ containsStr "Missing --input, --output, or --platform" "--input" = true
    ∧ containsStr "Missing --input, --output, or --platform" "--output" = true
    ∧ containsStr "Missing --input, --output, or --platform" "--platform" = true := by
  refine ⟨fun h => ?_, fun h => ?_, fun h => ?_, rfl, rfl, rfl⟩
  · rcases h with h | h | h <;> simp [main, h]
  · rcases h with h | h <;> simp [main, h]
  · rcases h with h | h <;> simp [main, h]

theorem c10_stub_required_witness :
    main envP "optimize" argsNone
      = ([⟨false, none, none, none, some "Missing --input, --output, or --platform", none⟩], 1)
    ∧ main envP "generate_lods" argsNone
      = ([⟨false, none, none, none, some "Missing --input or --output", none⟩], 1)
    ∧ main envP "bake_textures" argsNone
      = ([⟨false, none, none, none, some "Missing --input or --output", none⟩], 1) :=
  ⟨(c10_stub_required envP argsNone).1 (Or.inl rfl),
   (c10_stub_required envP argsNone).2.1 (Or.inl rfl),
   (c10_stub_required envP argsNone).2.2.1 (Or.inl rfl)⟩

end Claims
